import Mathlib

/-!
Verification of the LangGraph + New Relic integration script (src/agent.py).

The script is shallowly embedded: Python exceptions become `Except PyErr`,
module-level side effects become explicit state passing, and the opaque
external callables (the compiled graph entry points, the LLM client) become
function parameters.  Every definition mirrors the corresponding Python
construct; the theorems below settle the specification claims.
-/

/-- A Python exception value, as far as the script distinguishes them. -/
inductive PyErr where
  | importError
  | attributeError
  | indexError
  | exception (msg : String)
  deriving DecidableEq, Repr

/-- A closed universe of Python values the script passes around. -/
inductive PyVal where
  | none
  | str (s : String)
  | int (n : Int)
  deriving DecidableEq, Repr

/-- Positional and keyword arguments of a Python call (`*args, **kwargs`). -/
structure CallArgs where
  args : List PyVal
  kwargs : List (String × PyVal)
  deriving DecidableEq, Repr

/-! ## The resilient Uvicorn hook proxy (src/agent.py lines 26-63) -/

/-- The real `newrelic.hooks.adapter_uvicorn` module, modelled as its
attribute table: `attrs name = some v` iff the module defines `name`. -/
structure RealHook where
  attrs : String → Option PyVal

/-- The mutable state of a `ResilientUvicornHook` instance: the Python
fields `_real_hook` and `_hook_loaded`. -/
structure ResilientUvicornHook where
  real_hook : Option RealHook
  hook_loaded : Bool

/-- The state produced by `ResilientUvicornHook.__init__`. -/
def hookInit : ResilientUvicornHook := { real_hook := none, hook_loaded := false }

/-- The body of `_load_real_hook` WITHOUT its `try/except`: the raw import
of `newrelic.hooks.adapter_uvicorn` (outcome `imp`) can raise, and the
raise is propagated.  `if not self._hook_loaded:` guards the whole body. -/
def loadAttempt (imp : Except PyErr RealHook) (h : ResilientUvicornHook) :
    Except PyErr ResilientUvicornHook :=
  if h.hook_loaded then Except.ok h
  else
    match imp with
    | Except.ok m => Except.ok { real_hook := some m, hook_loaded := true }
    | Except.error e => Except.error e

/-- `_load_real_hook` itself: the `try/except (ImportError, AttributeError,
Exception)` catches every raise of the body and only sets
`self._hook_loaded = True`, leaving `_real_hook` unchanged. -/
def _load_real_hook (imp : Except PyErr RealHook) (h : ResilientUvicornHook) :
    ResilientUvicornHook :=
  match loadAttempt imp h with
  | Except.ok h' => h'
  | Except.error _ => { h with hook_loaded := true }

/-- What an attribute access on the proxy returns: either an attribute of
the real module, unchanged, or the no-op fallback `lambda *args, **kwargs:
None`. -/
inductive GetattrResult where
  | real (v : PyVal)
  | noOpFallback
  deriving DecidableEq, Repr

/-- Calling the fallback `lambda *args, **kwargs: None`: it accepts any
arguments, raises nothing and returns `None`. -/
def noOpCall (_a : CallArgs) : Except PyErr PyVal := Except.ok PyVal.none

/-- `ResilientUvicornHook.__getattr__`: load the real hook (at most once),
then delegate when `self._real_hook` is truthy and `hasattr(self._real_hook,
name)`, else return the no-op fallback.  The function is total because the
only fallible operation in its body, the import inside `_load_real_hook`,
is caught there: no path raises. -/
def resilientGetattr (imp : Except PyErr RealHook) (h : ResilientUvicornHook)
    (name : String) : ResilientUvicornHook × GetattrResult :=
  let h' := _load_real_hook imp h
  match h'.real_hook with
  | some m =>
      match m.attrs name with
      | some v => (h', GetattrResult.real v)
      | none => (h', GetattrResult.noOpFallback)
  | none => (h', GetattrResult.noOpFallback)

/-- A sequence of attribute accesses, each with its own (arbitrary) import
outcome, threaded through the proxy state. -/
def accessMany (h : ResilientUvicornHook)
    (accs : List (Except PyErr RealHook × String)) : ResilientUvicornHook :=
  accs.foldl (fun st acc => (resilientGetattr acc.1 st acc.2).1) h

theorem load_sets_flag (imp : Except PyErr RealHook) (h : ResilientUvicornHook) :
    (_load_real_hook imp h).hook_loaded = true := by
  unfold _load_real_hook loadAttempt
  by_cases hl : h.hook_loaded
  · simp [hl]
  · simp only [Bool.not_eq_true] at hl
    cases imp <;> simp [hl]

theorem getattr_fst (imp : Except PyErr RealHook) (h : ResilientUvicornHook)
    (name : String) :
    (resilientGetattr imp h name).1 = _load_real_hook imp h := by
  unfold resilientGetattr
  cases hm : (_load_real_hook imp h).real_hook with
  | none => simp [hm]
  | some m => cases hma : m.attrs name <;> simp [hm, hma]

theorem loaded_state_fixed (imp : Except PyErr RealHook)
    (h : ResilientUvicornHook) (hl : h.hook_loaded = true) :
    _load_real_hook imp h = h := by
  unfold _load_real_hook loadAttempt
  simp [hl]

/-- C2: for every attribute name, `__getattr__` on the hook proxy never
raises; if the real hook module was loaded and defines the name the
attribute is returned unchanged, and otherwise the result is a callable
accepting arbitrary arguments that returns `None` and raises nothing.
(`Except.ok` throughout `noOpCall`, and the totality of `resilientGetattr`,
embed the never-raises part; `resilientGetattr` is total precisely because
`_load_real_hook` catches the only fallible operation, the import.) -/
theorem getattr_never_raises_and_delegates (imp : Except PyErr RealHook)
    (h : ResilientUvicornHook) (name : String) (a : CallArgs) (err : PyErr) :
    (resilientGetattr imp h name).2 =
      (match (_load_real_hook imp h).real_hook with
       | some m =>
           match m.attrs name with
           | some v => GetattrResult.real v
           | none => GetattrResult.noOpFallback
       | none => GetattrResult.noOpFallback)
    ∧ noOpCall a = Except.ok PyVal.none
    ∧ resilientGetattr (Except.error err) hookInit name =
        ({ real_hook := none, hook_loaded := true }, GetattrResult.noOpFallback) := by
  refine ⟨?_, rfl, rfl⟩
  unfold resilientGetattr
  cases hm : (_load_real_hook imp h).real_hook with
  | none => simp [hm]
  | some m => cases hma : m.attrs name <;> simp [hm, hma]

theorem accessMany_loaded_fixed (accs : List (Except PyErr RealHook × String)) :
    ∀ st : ResilientUvicornHook, st.hook_loaded = true → accessMany st accs = st := by
  induction accs with
  | nil => intro st _; rfl
  | cons acc rest ih =>
      intro st hfl
      have hstep : (resilientGetattr acc.1 st acc.2).1 = st := by
        rw [getattr_fst, loaded_state_fixed acc.1 _ hfl]
      unfold accessMany
      simp only [List.foldl_cons, hstep]
      exact ih st hfl

/-- C3: resolution is attempted at most once per proxy instance.  After one
attribute access the loaded flag is set; any further access, with an
arbitrary (even different) import outcome, leaves the state — including the
stored delegate — unchanged, and its raw load body is the immediate
`Except.ok` return (no import attempt); this persists over any sequence of
further accesses. -/
theorem resolution_at_most_once (imp imp2 : Except PyErr RealHook)
    (h : ResilientUvicornHook) (name name2 : String)
    (accs : List (Except PyErr RealHook × String)) :
    ((resilientGetattr imp h name).1).hook_loaded = true
    ∧ (resilientGetattr imp2 (resilientGetattr imp h name).1 name2).1 =
        (resilientGetattr imp h name).1
    ∧ loadAttempt imp2 (resilientGetattr imp h name).1 =
        Except.ok (resilientGetattr imp h name).1
    ∧ accessMany (resilientGetattr imp h name).1 accs =
        (resilientGetattr imp h name).1 := by
  have hfl : ((resilientGetattr imp h name).1).hook_loaded = true := by
    rw [getattr_fst]; exact load_sets_flag imp h
  refine ⟨hfl, ?_, ?_, ?_⟩
  · rw [getattr_fst, loaded_state_fixed imp2 _ hfl]
  · unfold loadAttempt; simp [hfl]
  · exact accessMany_loaded_fixed accs _ hfl

/-! ## Graph entry points and the instrumentation wrapper
(src/agent.py lines 171-214) -/

/-- The set_transaction_name calls recorded so far: pairs of transaction
name and group. -/
abbrev TxnTrace : Type := List (String × String)

/-- A graph entry-point value: either an original callable of the compiled
graph (opaque, modelled by its input/output function) or a wrapper produced
by the instrumentation block, closing over the entry point it replaced.
The asynchronous variants are embedded by their awaited results, so all
four share this shape. -/
inductive Entry where
  | base (f : CallArgs → Except PyErr PyVal)
  | wrap (txn : String) (e : Entry)

/-- Calling an entry point: a wrapper first calls
`newrelic.agent.set_transaction_name(txn, group="Function")` (recorded on
the trace) and then delegates to the entry point it wrapped with the same
arguments, returning its result unchanged (awaited for the async
variants). -/
def Entry.call : Entry → CallArgs → TxnTrace → TxnTrace × Except PyErr PyVal
  | Entry.base f, a, t => (t, f a)
  | Entry.wrap txn e, a, t => e.call a (t ++ [(txn, "Function")])

/-- The compiled graph, reduced to its four instrumented attributes.  A
`none` field is an entry point the compiled graph does not expose
(`hasattr` is false, so `original_x = None`). -/
structure CompiledGraph where
  invoke : Option Entry
  ainvoke : Option Entry
  stream : Option Entry
  astream : Option Entry

def txnInvoke : String := "LangGraph/agent/invoke"
def txnAinvoke : String := "LangGraph/agent/ainvoke"
def txnStream : String := "LangGraph/agent/stream"
def txnAstream : String := "LangGraph/agent/astream"

/-- Fault model for the `try` block of the instrumentation section: the
fallible operations are, in program order, the `import newrelic.agent`
(index 0) and the four attribute re-assignments `graph.x = wrapped_x`
(indices 1-4, which on a compiled graph with strict attribute validation
can raise).  `failAt = some k` means operation `k` raises if it executes;
`none` means nothing raises.  A re-assignment guarded by a falsy
`original_x` does not execute and so cannot fail. -/
def stepInvoke (failAt : Option Nat) (g : CompiledGraph) :
    Except (CompiledGraph × PyErr) CompiledGraph :=
  match g.invoke with
  | none => Except.ok g
  | some e =>
      if failAt = some 1 then Except.error (g, PyErr.exception "invoke assignment")
      else Except.ok { g with invoke := some (Entry.wrap txnInvoke e) }

def stepAinvoke (failAt : Option Nat) (g : CompiledGraph) :
    Except (CompiledGraph × PyErr) CompiledGraph :=
  match g.ainvoke with
  | none => Except.ok g
  | some e =>
      if failAt = some 2 then Except.error (g, PyErr.exception "ainvoke assignment")
      else Except.ok { g with ainvoke := some (Entry.wrap txnAinvoke e) }

def stepStream (failAt : Option Nat) (g : CompiledGraph) :
    Except (CompiledGraph × PyErr) CompiledGraph :=
  match g.stream with
  | none => Except.ok g
  | some e =>
      if failAt = some 3 then Except.error (g, PyErr.exception "stream assignment")
      else Except.ok { g with stream := some (Entry.wrap txnStream e) }

def stepAstream (failAt : Option Nat) (g : CompiledGraph) :
    Except (CompiledGraph × PyErr) CompiledGraph :=
  match g.astream with
  | none => Except.ok g
  | some e =>
      if failAt = some 4 then Except.error (g, PyErr.exception "astream assignment")
      else Except.ok { g with astream := some (Entry.wrap txnAstream e) }

/-- The body of the instrumentation `try` block: import, then the four
guarded re-assignments in order.  An error carries the graph state at the
moment of the raise, because the preceding re-assignments mutated the graph
in place and are not rolled back. -/
def wrapAttempt (g : CompiledGraph) (failAt : Option Nat) :
    Except (CompiledGraph × PyErr) CompiledGraph :=
  if failAt = some 0 then Except.error (g, PyErr.importError)
  else
    (stepInvoke failAt g).bind fun g1 =>
      (stepAinvoke failAt g1).bind fun g2 =>
        (stepStream failAt g2).bind fun g3 =>
          stepAstream failAt g3

def okWithMsg : String :=
  "✅ LangGraph compiled successfully with New Relic instrumentation"
def okWithoutMsg : String :=
  "✅ LangGraph compiled successfully (without New Relic instrumentation)"
def okPlainMsg : String := "✅ LangGraph compiled successfully"

def errText : PyErr → String
  | PyErr.importError => "ImportError"
  | PyErr.attributeError => "AttributeError"
  | PyErr.indexError => "IndexError"
  | PyErr.exception m => m

def warnInstrMsg (e : PyErr) : String :=
  "⚠️ New Relic instrumentation failed: " ++ errText e

/-- The whole `if license_key: try ... except` instrumentation section:
when the license key is falsy the block is skipped; otherwise the wrapping
is attempted and any raise is caught and reported on the console, leaving
the graph in whatever state the attempt reached. -/
def instrument_graph (licenseTruthy : Bool) (g : CompiledGraph)
    (failAt : Option Nat) : CompiledGraph × List String :=
  if licenseTruthy then
    match wrapAttempt g failAt with
    | Except.ok g' => (g', [okWithMsg])
    | Except.error (g', e) => (g', [warnInstrMsg e, okWithoutMsg])
  else (g, [okPlainMsg])

/-- The graph state an attempt leaves behind: the reached state on success,
and the state at the moment of the raise on failure (in-place mutation, no
rollback). -/
def attemptGraph : Except (CompiledGraph × PyErr) CompiledGraph → CompiledGraph
  | Except.ok g => g
  | Except.error p => p.1

/-- An entry point after the instrumentation section: either untouched or
re-assigned to the wrapper over its original value. -/
def FieldRel (txn : String) (old new : Option Entry) : Prop :=
  new = old ∨ new = old.map (Entry.wrap txn)

/-- C1: on a compiled graph exposing all four entry points, successful
wrapping replaces each entry point by its wrapper, and calling any wrapper
with arguments `a` returns exactly what the corresponding original returns
on `a` — the `Except` result is propagated unchanged, so a raising original
(`fi a = Except.error e`) raises the same `e` through the wrapper; the
async variants are embedded by their awaited results.  The only extra
effect is the recorded transaction name. -/
theorem wrapped_entries_preserve_results
    (fi fa fs fas : CallArgs → Except PyErr PyVal) (a : CallArgs) (t : TxnTrace) :
    (instrument_graph true
        { invoke := some (Entry.base fi), ainvoke := some (Entry.base fa),
          stream := some (Entry.base fs), astream := some (Entry.base fas) } none).1 =
      { invoke := some (Entry.wrap txnInvoke (Entry.base fi)),
        ainvoke := some (Entry.wrap txnAinvoke (Entry.base fa)),
        stream := some (Entry.wrap txnStream (Entry.base fs)),
        astream := some (Entry.wrap txnAstream (Entry.base fas)) }
    ∧ (Entry.wrap txnInvoke (Entry.base fi)).call a t = (t ++ [(txnInvoke, "Function")], fi a)
    ∧ (Entry.wrap txnAinvoke (Entry.base fa)).call a t = (t ++ [(txnAinvoke, "Function")], fa a)
    ∧ (Entry.wrap txnStream (Entry.base fs)).call a t = (t ++ [(txnStream, "Function")], fs a)
    ∧ (Entry.wrap txnAstream (Entry.base fas)).call a t = (t ++ [(txnAstream, "Function")], fas a) := by
  exact ⟨rfl, rfl, rfl, rfl, rfl⟩

/-- C6: on a compiled graph missing one or more entry points, a wrapping
attempt with no instrumentation fault completes without raising, leaves
every absent entry point untouched (`Option.map` sends `none` to `none`)
and wraps every present one. -/
theorem wrap_handles_missing_entries (g : CompiledGraph)
    (hMissing : g.invoke = none ∨ g.ainvoke = none ∨ g.stream = none ∨ g.astream = none) :
    (wrapAttempt g none).isOk = true
    ∧ wrapAttempt g none = Except.ok
        { invoke := g.invoke.map (Entry.wrap txnInvoke),
          ainvoke := g.ainvoke.map (Entry.wrap txnAinvoke),
          stream := g.stream.map (Entry.wrap txnStream),
          astream := g.astream.map (Entry.wrap txnAstream) } := by
  have h2 : wrapAttempt g none = Except.ok
      { invoke := g.invoke.map (Entry.wrap txnInvoke),
        ainvoke := g.ainvoke.map (Entry.wrap txnAinvoke),
        stream := g.stream.map (Entry.wrap txnStream),
        astream := g.astream.map (Entry.wrap txnAstream) } := by
    rcases g with ⟨i, ai, s, as⟩
    cases i <;> cases ai <;> cases s <;> cases as <;>
      simp [wrapAttempt, stepInvoke, stepAinvoke, stepStream, stepAstream, Except.bind]
  exact ⟨by rw [h2]; rfl, h2⟩

/-- A concrete base entry point used in closed statements. -/
def e0 : Entry := Entry.base (fun _ => Except.ok PyVal.none)

/-- A compiled graph exposing all four entry points. -/
def gAll : CompiledGraph :=
  { invoke := some e0, ainvoke := some e0, stream := some e0, astream := some e0 }

/-- A compiled graph missing its astream entry point. -/
def gNoAstream : CompiledGraph :=
  { invoke := some e0, ainvoke := some e0, stream := some e0, astream := none }

theorem wrap_handles_missing_entries_witness :
    (gNoAstream.invoke = none ∨ gNoAstream.ainvoke = none ∨ gNoAstream.stream = none ∨
        gNoAstream.astream = none)
    ∧ ((wrapAttempt gNoAstream none).isOk = true
        ∧ wrapAttempt gNoAstream none = Except.ok
            { invoke := gNoAstream.invoke.map (Entry.wrap txnInvoke),
              ainvoke := gNoAstream.ainvoke.map (Entry.wrap txnAinvoke),
              stream := gNoAstream.stream.map (Entry.wrap txnStream),
              astream := gNoAstream.astream.map (Entry.wrap txnAstream) }) :=
  ⟨Or.inr (Or.inr (Or.inr rfl)),
   wrap_handles_missing_entries gNoAstream (Or.inr (Or.inr (Or.inr rfl)))⟩

/-- C5 counterexample: with all four entry points present and the raise
occurring at the `graph.ainvoke = wrapped_ainvoke` re-assignment, the
failure is caught but the graph is NOT left in its unwrapped state: its
invoke entry point is already the wrapper, no longer the original
callable. -/
theorem wrap_failure_not_fully_unwrapped :
    (wrapAttempt gAll (some 2)).isOk = false
    ∧ (instrument_graph true gAll (some 2)).1.invoke = some (Entry.wrap txnInvoke e0)
    ∧ (instrument_graph true gAll (some 2)).1.invoke ≠ gAll.invoke := by
  refine ⟨rfl, rfl, ?_⟩
  intro hEq
  have : Entry.wrap txnInvoke e0 = e0 := by
    have h2 : some (Entry.wrap txnInvoke e0) = some e0 := hEq
    exact Option.some.inj h2
  simp [e0] at this

theorem stepInvoke_shape (failAt : Option Nat) (g : CompiledGraph) :
    stepInvoke failAt g = Except.error (g, PyErr.exception "invoke assignment")
    ∨ ∃ g', stepInvoke failAt g = Except.ok g'
        ∧ FieldRel txnInvoke g.invoke g'.invoke
        ∧ g'.ainvoke = g.ainvoke ∧ g'.stream = g.stream ∧ g'.astream = g.astream := by
  cases hm : g.invoke with
  | none =>
      refine Or.inr ⟨g, ?_, Or.inl hm, rfl, rfl, rfl⟩
      simp [stepInvoke, hm]
  | some e =>
      by_cases hf : failAt = some 1
      · exact Or.inl (by simp [stepInvoke, hm, hf])
      · refine Or.inr ⟨{ g with invoke := some (Entry.wrap txnInvoke e) }, ?_, ?_, rfl, rfl, rfl⟩
        · simp [stepInvoke, hm, hf]
        · exact Or.inr (by simp [hm])

theorem stepAinvoke_shape (failAt : Option Nat) (g : CompiledGraph) :
    stepAinvoke failAt g = Except.error (g, PyErr.exception "ainvoke assignment")
    ∨ ∃ g', stepAinvoke failAt g = Except.ok g'
        ∧ FieldRel txnAinvoke g.ainvoke g'.ainvoke
        ∧ g'.invoke = g.invoke ∧ g'.stream = g.stream ∧ g'.astream = g.astream := by
  cases hm : g.ainvoke with
  | none =>
      refine Or.inr ⟨g, ?_, Or.inl hm, rfl, rfl, rfl⟩
      simp [stepAinvoke, hm]
  | some e =>
      by_cases hf : failAt = some 2
      · exact Or.inl (by simp [stepAinvoke, hm, hf])
      · refine Or.inr ⟨{ g with ainvoke := some (Entry.wrap txnAinvoke e) }, ?_, ?_, rfl, rfl, rfl⟩
        · simp [stepAinvoke, hm, hf]
        · exact Or.inr (by simp [hm])

theorem stepStream_shape (failAt : Option Nat) (g : CompiledGraph) :
    stepStream failAt g = Except.error (g, PyErr.exception "stream assignment")
    ∨ ∃ g', stepStream failAt g = Except.ok g'
        ∧ FieldRel txnStream g.stream g'.stream
        ∧ g'.invoke = g.invoke ∧ g'.ainvoke = g.ainvoke ∧ g'.astream = g.astream := by
  cases hm : g.stream with
  | none =>
      refine Or.inr ⟨g, ?_, Or.inl hm, rfl, rfl, rfl⟩
      simp [stepStream, hm]
  | some e =>
      by_cases hf : failAt = some 3
      · exact Or.inl (by simp [stepStream, hm, hf])
      · refine Or.inr ⟨{ g with stream := some (Entry.wrap txnStream e) }, ?_, ?_, rfl, rfl, rfl⟩
        · simp [stepStream, hm, hf]
        · exact Or.inr (by simp [hm])

theorem stepAstream_shape (failAt : Option Nat) (g : CompiledGraph) :
    stepAstream failAt g = Except.error (g, PyErr.exception "astream assignment")
    ∨ ∃ g', stepAstream failAt g = Except.ok g'
        ∧ FieldRel txnAstream g.astream g'.astream
        ∧ g'.invoke = g.invoke ∧ g'.ainvoke = g.ainvoke ∧ g'.stream = g.stream := by
  cases hm : g.astream with
  | none =>
      refine Or.inr ⟨g, ?_, Or.inl hm, rfl, rfl, rfl⟩
      simp [stepAstream, hm]
  | some e =>
      by_cases hf : failAt = some 4
      · exact Or.inl (by simp [stepAstream, hm, hf])
      · refine Or.inr ⟨{ g with astream := some (Entry.wrap txnAstream e) }, ?_, ?_, rfl, rfl, rfl⟩
        · simp [stepAstream, hm, hf]
        · exact Or.inr (by simp [hm])

/-- Whatever the fault, every entry point of the graph the attempt leaves
behind is either its original value or the wrapper over that original. -/
theorem wrapAttempt_fields (g : CompiledGraph) (failAt : Option Nat) :
    FieldRel txnInvoke g.invoke (attemptGraph (wrapAttempt g failAt)).invoke
    ∧ FieldRel txnAinvoke g.ainvoke (attemptGraph (wrapAttempt g failAt)).ainvoke
    ∧ FieldRel txnStream g.stream (attemptGraph (wrapAttempt g failAt)).stream
    ∧ FieldRel txnAstream g.astream (attemptGraph (wrapAttempt g failAt)).astream := by
  by_cases h0 : failAt = some 0
  · simp only [wrapAttempt, h0, if_pos, attemptGraph]
    exact ⟨Or.inl rfl, Or.inl rfl, Or.inl rfl, Or.inl rfl⟩
  · unfold wrapAttempt
    rw [if_neg h0]
    rcases stepInvoke_shape failAt g with h1 | ⟨g1, h1, hr1, e1a, e1s, e1as⟩
    · rw [h1]; simp only [Except.bind, attemptGraph]
      exact ⟨Or.inl rfl, Or.inl rfl, Or.inl rfl, Or.inl rfl⟩
    · rw [h1]; simp only [Except.bind]
      rcases stepAinvoke_shape failAt g1 with h2 | ⟨g2, h2, hr2, e2i, e2s, e2as⟩
      · rw [h2]; simp only [Except.bind, attemptGraph]
        exact ⟨hr1, e1a ▸ Or.inl rfl, e1s ▸ Or.inl rfl, e1as ▸ Or.inl rfl⟩
      · rw [h2]; simp only [Except.bind]
        rcases stepStream_shape failAt g2 with h3 | ⟨g3, h3, hr3, e3i, e3a, e3as⟩
        · rw [h3]; simp only [Except.bind, attemptGraph]
          refine ⟨e2i ▸ hr1, ?_, ?_, ?_⟩
          · rw [e1a] at hr2; exact hr2
          · rw [e2s, e1s]; exact Or.inl rfl
          · rw [e2as, e1as]; exact Or.inl rfl
        · rw [h3]; simp only [Except.bind]
          rcases stepAstream_shape failAt g3 with h4 | ⟨g4, h4, hr4, e4i, e4a, e4s⟩
          · rw [h4]; simp only [Except.bind, attemptGraph]
            refine ⟨?_, ?_, ?_, ?_⟩
            · rw [e3i, e2i]; exact hr1
            · rw [e3a, e1a] at *; rw [e1a] at hr2; exact hr2
            · rw [e2s, e1s] at hr3; exact hr3
            · rw [e3as, e2as, e1as]; exact Or.inl rfl
          · rw [h4]; simp only [attemptGraph]
            refine ⟨?_, ?_, ?_, ?_⟩
            · rw [e4i, e3i, e2i]; exact hr1
            · rw [e4a, e3a]; rw [e1a] at hr2; exact hr2
            · rw [e4s]; rw [e2s, e1s] at hr3; exact hr3
            · rw [e3as, e2as, e1as] at hr4; exact hr4

/-- C5 (amended): any raise inside the wrapping attempt is caught and
reported on the console (warning plus the still-usable banner), never
propagated, and the graph stays usable; but the graph is not rolled back to
a fully unwrapped state: each entry point is either its original callable
or the wrapper over that original (which delegates to it), and only when
the failure precedes every re-assignment — at the `import newrelic.agent`
step — are all four entry points exactly the originals. -/
theorem wrapping_failure_caught_and_reported (g : CompiledGraph) (failAt : Option Nat) :
    (instrument_graph true g (some 0)).1 = g
    ∧ (instrument_graph true g (some 0)).2 = [warnInstrMsg PyErr.importError, okWithoutMsg]
    ∧ (instrument_graph true g failAt).1 = attemptGraph (wrapAttempt g failAt)
    ∧ (instrument_graph true g failAt).2 =
        (match wrapAttempt g failAt with
         | Except.ok _ => [okWithMsg]
         | Except.error (_, e) => [warnInstrMsg e, okWithoutMsg])
    ∧ FieldRel txnInvoke g.invoke (instrument_graph true g failAt).1.invoke
    ∧ FieldRel txnAinvoke g.ainvoke (instrument_graph true g failAt).1.ainvoke
    ∧ FieldRel txnStream g.stream (instrument_graph true g failAt).1.stream
    ∧ FieldRel txnAstream g.astream (instrument_graph true g failAt).1.astream := by
  have hfst : ∀ fA : Option Nat,
      (instrument_graph true g fA).1 = attemptGraph (wrapAttempt g fA) := by
    intro fA
    unfold instrument_graph
    cases hw : wrapAttempt g fA with
    | ok g' => simp [hw, attemptGraph]
    | error p => rcases p with ⟨g', e⟩; simp [hw, attemptGraph]
  have hsnd : (instrument_graph true g failAt).2 =
      (match wrapAttempt g failAt with
       | Except.ok _ => [okWithMsg]
       | Except.error (_, e) => [warnInstrMsg e, okWithoutMsg]) := by
    unfold instrument_graph
    cases hw : wrapAttempt g failAt with
    | ok g' => simp [hw]
    | error p => rcases p with ⟨g', e⟩; simp [hw]
  have hflds := wrapAttempt_fields g failAt
  have h00 : (instrument_graph true g (some 0)).1 = g := by
    rw [hfst (some 0)]
    unfold wrapAttempt
    simp [attemptGraph]
  have h01 : (instrument_graph true g (some 0)).2 =
      [warnInstrMsg PyErr.importError, okWithoutMsg] := by
    unfold instrument_graph wrapAttempt
    simp
  refine ⟨h00, h01, hfst failAt, hsnd, ?_, ?_, ?_, ?_⟩
  · rw [hfst failAt]; exact hflds.1
  · rw [hfst failAt]; exact hflds.2.1
  · rw [hfst failAt]; exact hflds.2.2.1
  · rw [hfst failAt]; exact hflds.2.2.2

/-! ## APM initialization (src/agent.py lines 66-81) -/

/-- Python truthiness of a value read from `os.environ.get`: `None` and
the empty string are falsy. -/
def pyTruthy : Option String → Bool
  | none => false
  | some s => !s.isEmpty

/-- The literal `os.environ.get("NEW_RELIC_CONFIG_FILE",
"/deps/newrelic.ini")`: one variable, one fixed default. -/
def config_file (env : String → Option String) : String :=
  (env "NEW_RELIC_CONFIG_FILE").getD "/deps/newrelic.ini"

/-- Outcome of the body of the initialization `try`: the import of
`newrelic.agent` and the `initialize` call are its fallible operations. -/
inductive InitOutcome where
  | ok
  | importError (msg : String)
  | initError (msg : String)
  deriving DecidableEq, Repr

/-- What the initialization block did: the path passed to
`newrelic.agent.initialize` (or `none` when that call never happened) and
the console lines printed. -/
structure ApmInitResult where
  initializeArg : Option String
  console : List String
  deriving DecidableEq, Repr

def nrInfoMsg : String :=
  "ℹ️ NEW_RELIC_LICENSE_KEY not set - New Relic monitoring disabled"

def nrSuccessLines (cf : String) : List String :=
  ["✅ New Relic agent initialized (config: " ++ cf ++ ")",
   "   ✓ Uvicorn instrumentation: ENABLED",
   "   ✓ Distributed tracing: ENABLED",
   "   ✓ AI monitoring: ENABLED",
   "   ✓ Transaction tracing: ENABLED"]

def nrFailMsg (e : String) : String :=
  "⚠️ New Relic initialization failed: " ++ e

/-- The `if license_key: try ... except ... else` block at module level:
with a falsy key the whole attempt is skipped and only the info line is
printed; otherwise the import and `initialize(config_file)` run, and any
raise is caught and reported. -/
def apmInit (env : String → Option String) (outcome : InitOutcome) : ApmInitResult :=
  let cf := config_file env
  if pyTruthy (env "NEW_RELIC_LICENSE_KEY") then
    match outcome with
    | InitOutcome.ok => { initializeArg := some cf, console := nrSuccessLines cf }
    | InitOutcome.importError e => { initializeArg := none, console := [nrFailMsg e] }
    | InitOutcome.initError e => { initializeArg := some cf, console := [nrFailMsg e] }
  else { initializeArg := none, console := [nrInfoMsg] }

/-- Whether `pat` occurs contiguously inside a character list. -/
def hasInfixChars (pat : List Char) : List Char → Bool
  | [] => pat.isEmpty
  | c :: rest => pat.isPrefixOf (c :: rest) || hasInfixChars pat rest

/-- A console line references a failure iff it contains the word
"failed". -/
def mentionsFailure (s : String) : Bool := hasInfixChars "failed".toList s.toList

/-- C7: with no license key in the environment the initializer is never
called and the single console line (the info banner) references no
failure. -/
theorem no_license_skips_apm (env : String → Option String) (outcome : InitOutcome)
    (hNoKey : env "NEW_RELIC_LICENSE_KEY" = none) :
    (apmInit env outcome).initializeArg = none
    ∧ (apmInit env outcome).console = [nrInfoMsg]
    ∧ ((apmInit env outcome).console.all fun s => !mentionsFailure s) = true := by
  have hres : apmInit env outcome = { initializeArg := none, console := [nrInfoMsg] } := by
    unfold apmInit
    simp [hNoKey, pyTruthy]
  refine ⟨by rw [hres], by rw [hres], ?_⟩
  rw [hres]
  decide

theorem no_license_skips_apm_witness :
    ((fun _ : String => (none : Option String)) "NEW_RELIC_LICENSE_KEY" = none)
    ∧ ((apmInit (fun _ => none) InitOutcome.ok).initializeArg = none
       ∧ (apmInit (fun _ => none) InitOutcome.ok).console = [nrInfoMsg]
       ∧ ((apmInit (fun _ => none) InitOutcome.ok).console.all fun s => !mentionsFailure s) = true) :=
  ⟨rfl, no_license_skips_apm (fun _ => none) InitOutcome.ok rfl⟩

/-- Modelled from the spec: probing the existence of the config file at
several candidate relative paths, passing the first existing candidate (if
any) on to the initializer.  The spec attributes this behaviour to the
script; the script itself never consults the filesystem, which the
counterexample below exhibits. -/
def spec_config_probe (fileExists : String → Bool) (candidates : List String) :
    Option String :=
  candidates.find? fileExists

/-- C8 counterexample: with a license key set, no config variable and a
filesystem on which no candidate path exists, the script still passes the
default path to the initializer, whereas the probing the claim describes
finds nothing: the existence of the config file is never probed. -/
theorem config_not_probed_counterexample :
    (apmInit (fun v => if v = "NEW_RELIC_LICENSE_KEY" then some "key" else none)
        InitOutcome.ok).initializeArg = some "/deps/newrelic.ini"
    ∧ spec_config_probe (fun _ => false) ["/deps/newrelic.ini"] = none := by
  constructor
  · decide
  · rfl

/-- C8 (amended): the config path is read from the single environment
variable NEW_RELIC_CONFIG_FILE with the fixed default /deps/newrelic.ini;
its existence is never probed, and the path is passed to the initializer
unconditionally whenever the license key is truthy and the library import
succeeds (no path when the key is falsy or the import itself fails). -/
theorem config_path_passed_unconditionally (env : String → Option String)
    (outcome : InitOutcome) :
    (apmInit env outcome).initializeArg =
      (if pyTruthy (env "NEW_RELIC_LICENSE_KEY") then
        match outcome with
        | InitOutcome.importError _ => none
        | _ => some (config_file env)
      else none) := by
  unfold apmInit
  by_cases hk : pyTruthy (env "NEW_RELIC_LICENSE_KEY") <;> cases outcome <;> simp [hk]

/-! ## The chatbot node and the compiled graph (src/agent.py lines 95-162) -/

/-- A conversation message: either an object with a `content` attribute or
a bare value, rendered through `str`. -/
inductive Msg where
  | chat (role : String) (content : String)
  | plain (s : String)
  deriving DecidableEq, Repr

/-- The expression `last_message.content if hasattr(last_message,
"content") else str(last_message)`. -/
def contentOrStr : Msg → String
  | Msg.chat _ c => c
  | Msg.plain s => s

/-- The chatbot node: try the LLM (behaviour opaque, parameter `llm`); on
any exception fall back to echo mode, where `messages[-1]` raises
IndexError on an empty list.  The result is the list bound to "messages"
in the returned state delta. -/
def chatbot (llm : List Msg → Except PyErr Msg) (messages : List Msg) :
    Except PyErr (List Msg) :=
  match llm messages with
  | Except.ok response => Except.ok [response]
  | Except.error _ =>
      match messages.getLast? with
      | some last =>
          Except.ok [Msg.chat "assistant" ("Echo: " ++ contentOrStr last)]
      | none => Except.error PyErr.indexError

/-- Invoking the compiled two-node graph (START → chatbot → END) on a
state: the `add_messages` reducer appends the node delta to the incoming
messages; a node exception propagates out of the invocation. -/
def graph_invoke_messages (llm : List Msg → Except PyErr Msg)
    (messages : List Msg) : Except PyErr (List Msg) :=
  match chatbot llm messages with
  | Except.ok delta => Except.ok (messages ++ delta)
  | Except.error e => Except.error e

/-- C4: with the LLM backend unavailable (every call raises), sending the
state holding the single message "hello" through the compiled graph yields
the assistant response "Echo: hello" as its last message. -/
theorem echo_mode_hello (err : PyErr) :
    graph_invoke_messages (fun _ => Except.error err) [Msg.chat "user" "hello"] =
      Except.ok [Msg.chat "user" "hello", Msg.chat "assistant" "Echo: hello"]
    ∧ (graph_invoke_messages (fun _ => Except.error err)
        [Msg.chat "user" "hello"]).map (fun l => l.getLast?) =
        Except.ok (some (Msg.chat "assistant" "Echo: hello")) :=
  ⟨rfl, rfl⟩

/-- C10: the echo fallback is total exactly for non-empty message lists:
with the LLM raising, a non-empty state yields the echo of its last
message, while on the empty state the `messages[-1]` of the fallback
itself raises an uncaught IndexError. -/
theorem echo_fallback_needs_nonempty (messages : List Msg) (err : PyErr)
    (hne : messages ≠ []) :
    chatbot (fun _ => Except.error err) messages =
      Except.ok [Msg.chat "assistant" ("Echo: " ++ contentOrStr (messages.getLast hne))]
    ∧ chatbot (fun _ => Except.error err) [] = Except.error PyErr.indexError := by
  constructor
  · unfold chatbot
    simp [List.getLast?_eq_getLast_of_ne_nil hne]
  · rfl

theorem echo_fallback_needs_nonempty_witness :
    chatbot (fun _ => Except.error (PyErr.exception "no LLM")) [Msg.chat "user" "hi"] =
      Except.ok [Msg.chat "assistant"
        ("Echo: " ++ contentOrStr ([Msg.chat "user" "hi"].getLast (List.cons_ne_nil _ _)))]
    ∧ chatbot (fun _ => Except.error (PyErr.exception "no LLM")) [] =
        Except.error PyErr.indexError :=
  echo_fallback_needs_nonempty [Msg.chat "user" "hi"] (PyErr.exception "no LLM")
    (List.cons_ne_nil _ _)

/-! ## The get_weather tool (src/agent.py lines 100-122) -/

/-- The `get_weather` tool: with a truthy license key it tries to wrap the
result in a New Relic FunctionTrace (the Bool of the result records
whether the traced branch produced it); any exception in that branch is
swallowed and the fallback returns the same string, as does the branch
without a key. -/
def get_weather (licenseTruthy : Bool) (nrOutcome : Except PyErr Unit)
    (location : String) : String × Bool :=
  if licenseTruthy then
    match nrOutcome with
    | Except.ok _ => ("The weather in " ++ location ++ " is sunny and 72°F", true)
    | Except.error _ => ("The weather in " ++ location ++ " is sunny and 72°F", false)
  else ("The weather in " ++ location ++ " is sunny and 72°F", false)

/-- C9: noninterference of the instrumentation state — for every location
the weather string is identical across any two runs that differ in license
key presence and in APM importability; the value is always the fixed
template. -/
theorem get_weather_noninterference (l1 l2 : Bool) (n1 n2 : Except PyErr Unit)
    (location : String) :
    (get_weather l1 n1 location).1 = (get_weather l2 n2 location).1
    ∧ (get_weather l1 n1 location).1 =
        "The weather in " ++ location ++ " is sunny and 72°F" := by
  cases l1 <;> cases l2 <;> cases n1 <;> cases n2 <;> exact ⟨rfl, rfl⟩
